import Mathlib

/-!
Verification development for a pair of AWS-Lambda-style chat-history handlers.

The repository has two Python source files:
  * `src/functions/rag-get-chat-detail/app.py` — ChatDetailHandler
    (`process_attachment`, `get_chat_messages`, `delete_chat`, `lambda_handler`);
  * `src/.aws-sam/build/RagChatGetChatsFunction/app.py` — ChatListHandler
    (`lambda_handler`, embedded here as `getchats_lambda_handler`).

The embedding below follows the Python line by line.  Loosely-typed Python
values (the incoming event, message dictionaries, attachments, response
bodies) are modelled by the inductive `PyVal`; Python exceptions by `PyErr`
threaded through `Except`; a `try/except` block by a `match` on the
`Except` result.  The DynamoDB table is an association list from the
`userId` partition key to the record's `chats` attribute; store failures
are modelled by the Boolean flags `gF` (get_item raises) and `uF`
(update_item raises).  The list of performed store operations is returned
alongside each response so that "no store access" claims are expressible.
-/

/-- Python exception classes that the handlers distinguish:
`KeyError` (carrying the missing key), `TypeError`, `AttributeError`,
and a catch-all for everything else (boto3 client errors, etc.). -/
inductive PyErr where
  | keyError (k : String)
  | typeError
  | attributeError
  | other
deriving DecidableEq

/-- A loosely-typed Python/JSON value: `None`, booleans, ints,
arbitrary-precision decimals (`decimal.Decimal` as delivered by DynamoDB),
strings, lists, and string-keyed dicts (insertion-ordered). -/
inductive PyVal where
  | none
  | bool (b : Bool)
  | int (n : Int)
  | dec (q : ℚ)
  | str (s : String)
  | list (xs : List PyVal)
  | dict (kvs : List (String × PyVal))

/-- Python truthiness (`bool(v)`): `None`/`False`/`0`/`Decimal(0)`/empty
string/empty list/empty dict are falsy. -/
def pyTruthy : PyVal → Bool
  | .none => false
  | .bool b => b
  | .int n => n != 0
  | .dec q => q != 0
  | .str s => s ≠ ""
  | .list xs => !xs.isEmpty
  | .dict kvs => !kvs.isEmpty

/-- First value bound to key `k` in an insertion-ordered dict. -/
def dictLookup (kvs : List (String × PyVal)) (k : String) : Option PyVal :=
  (kvs.find? (fun p => p.1 == k)).map Prod.snd

/-- Python substring containment `pat in s` for strings. -/
def strContains (s pat : String) : Bool :=
  pat == "" || (s.splitOn pat).length ≥ 2

/-- Python `k in v`: key membership for dicts, substring for strings,
element membership for lists; `TypeError` otherwise. -/
def pyIn (k : String) : PyVal → Except PyErr Bool
  | .dict kvs => .ok (dictLookup kvs k).isSome
  | .str s => .ok (strContains s k)
  | .list xs => .ok (xs.any (fun v => match v with | .str t => t == k | _ => false))
  | _ => .error .typeError

/-- Python subscript `v[k]` with a string key: dict lookup raising
`KeyError` when absent; `TypeError` on any non-dict. -/
def pyIndex (v : PyVal) (k : String) : Except PyErr PyVal :=
  match v with
  | .dict kvs =>
    match dictLookup kvs k with
    | some x => .ok x
    | Option.none => .error (.keyError k)
  | _ => .error .typeError

/-- Python `v.get(k, d)`: total on dicts, `AttributeError` on any
non-dict receiver. -/
def pyGet (v : PyVal) (k : String) (d : PyVal) : Except PyErr PyVal :=
  match v with
  | .dict kvs => .ok ((dictLookup kvs k).getD d)
  | _ => .error .attributeError

/-- Python `list(v.keys())`: `AttributeError` on a non-dict receiver. -/
def pyKeys : PyVal → Except PyErr (List String)
  | .dict kvs => .ok (kvs.map Prod.fst)
  | _ => .error .attributeError

/-- ASCII uppercase of one character (HTTP method names are ASCII). -/
def upChar (c : Char) : Char :=
  if 97 ≤ c.toNat ∧ c.toNat ≤ 122 then Char.ofNat (c.toNat - 32) else c

/-- ASCII uppercase of a string, written over the character list so that
it reduces definitionally. -/
def strUpper (s : String) : String :=
  ⟨s.data.map upChar⟩

/-- Python `v.upper()`: defined on strings, `AttributeError` otherwise. -/
def pyUpper : PyVal → Except PyErr PyVal
  | .str s => .ok (.str (strUpper s))
  | _ => .error .attributeError

/-- Python equality `v == s` against a string literal: true exactly for
the equal string (a string never equals a number, list, dict or None). -/
def pyEqStr (v : PyVal) (s : String) : Bool :=
  match v with
  | .str t => t == s
  | _ => false

/-- Rendering of a value inside an f-string (only strings reach the one
use site, the 405 message). -/
def fstr : PyVal → String
  | .str s => s
  | .int n => toString n
  | .bool true => "True"
  | .bool false => "False"
  | .none => "None"
  | _ => ""

/-- A chat element of the stored record: `id`, `title` and the raw
`messages` list (messages stay loosely typed — the sanitizer is written
against arbitrary stored values). -/
structure Chat where
  id : String
  title : String
  messages : List PyVal

/-- The DynamoDB table: one record per `userId`, holding its `chats`
attribute. -/
abbrev Store : Type := List (String × List Chat)

/-- Store operations performed by a handler run. -/
inductive StoreOp where
  | getItem (uid : String)
  | updateChats (uid : String) (chats : List Chat)

/-- `get_item(Key={'userId': uid})`: `none` when no `Item` is returned. -/
def lookupRec (store : Store) (uid : String) : Option (List Chat) :=
  ((store : List (String × List Chat)).find? (fun p => p.1 == uid)).map Prod.snd

/-- `update_item(Key={'userId': uid}, UpdateExpression='SET chats = :chats')`:
overwrites the record's `chats` attribute (creating the item when absent —
in the delete path the item always exists). -/
def storeUpdate (store : Store) (uid : String) (chats : List Chat) : Store :=
  if (store : List (String × List Chat)).any (fun p => p.1 == uid) then
    (store : List (String × List Chat)).map (fun p => if p.1 == uid then (uid, chats) else p)
  else (store : List (String × List Chat)) ++ [(uid, chats)]

/-- Result of `DecimalEncoder.default` on a `Decimal`: either a Python int
or a Python float (tagged with the exact rational handed to `float`). -/
inductive EncodedNum where
  | int (n : Int)
  | float (q : ℚ)
deriving DecidableEq

/-- `DecimalEncoder.default` (detail handler, lines 19-26): a `Decimal`
with zero fractional part (`obj % 1 == 0`) becomes `int(obj)`, any other
becomes `float(obj)`.  A `Decimal` is an exact rational; its fractional
part is zero exactly when its reduced denominator is 1, and `int` on such
a value is exact truncation, i.e. the numerator. -/
def DecimalEncoder_default (q : ℚ) : EncodedNum :=
  if q.den = 1 then .int q.num else .float q

/-- `process_attachment`, body of the `try` block (lines 34-58): build the
projected dict with defaults, then copy `s3Key` / `data` (when truthy),
`displayUrl`, `note` (when present). -/
def process_attachment_try (attachment : PyVal) : Except PyErr PyVal := do
  let fn ← pyGet attachment "fileName" (.str "")
  let ft ← pyGet attachment "fileType" (.str "")
  let sz ← pyGet attachment "size" (.int 0)
  let base := [("fileName", fn), ("fileType", ft), ("size", sz)]
  let hs3 ← pyIn "s3Key" attachment
  let base ← if hs3 then do
      let v ← pyIndex attachment "s3Key"
      if pyTruthy v then pure (base ++ [("s3Key", v)]) else pure base
    else pure base
  let hd ← pyIn "data" attachment
  let base ← if hd then do
      let v ← pyIndex attachment "data"
      if pyTruthy v then pure (base ++ [("data", v)]) else pure base
    else pure base
  let hdu ← pyIn "displayUrl" attachment
  let base ← if hdu then do
      let v ← pyIndex attachment "displayUrl"
      pure (base ++ [("displayUrl", v)])
    else pure base
  let hn ← pyIn "note" attachment
  let base ← if hn then do
      let v ← pyIndex attachment "note"
      pure (base ++ [("note", v)])
    else pure base
  pure (.dict base)

/-- `process_attachment` (lines 28-68): falsy attachment → `None`;
otherwise the `try` block above, whose failure falls into an `except`
block that rebuilds basic info via `attachment.get` — calls which raise
again when the attachment is not a dict, so that error escapes. -/
def process_attachment (attachment : PyVal) : Except PyErr PyVal :=
  if !pyTruthy attachment then .ok .none
  else
    match process_attachment_try attachment with
    | .ok r => .ok r
    | .error _ => do
      let fn ← pyGet attachment "fileName" (.str "Unknown file")
      let ft ← pyGet attachment "fileType" (.str "")
      let sz ← pyGet attachment "size" (.int 0)
      pure (.dict [("fileName", fn), ("fileType", ft), ("size", sz),
                   ("note", .str "添付ファイルの処理中にエラーが発生しました")])

/-- Body of the per-message `try` block in `get_chat_messages`
(lines 92-111): mandatory `id`/`role`/`content` with defaults, optional
`mode`/`model`, and the processed attachment when truthy. -/
def sanitize_message_try (message : PyVal) : Except PyErr PyVal := do
  let i ← pyGet message "id" (.str "")
  let r ← pyGet message "role" (.str "")
  let c ← pyGet message "content" (.str "")
  let base := [("id", i), ("role", r), ("content", c)]
  let hm ← pyIn "mode" message
  let base ← if hm then do
      let v ← pyIndex message "mode"
      pure (base ++ [("mode", v)])
    else pure base
  let hmo ← pyIn "model" message
  let base ← if hmo then do
      let v ← pyIndex message "model"
      pure (base ++ [("model", v)])
    else pure base
  let ha ← pyIn "attachment" message
  if ha then do
    let att ← pyIndex message "attachment"
    if pyTruthy att then do
      let pa ← process_attachment att
      if pyTruthy pa then pure (.dict (base ++ [("attachment", pa)]))
      else pure (.dict base)
    else pure (.dict base)
  else pure (.dict base)

/-- One iteration of the message loop (lines 91-121): the `try` block
above; on failure the `except` block first logs `message.get('id', ...)`
(which itself raises on a non-dict message) and then appends the
placeholder built from `message.get` with the documented fallbacks.
`processedLen` is `len(processed_messages)` at that point. -/
def sanitize_message (processedLen : Nat) (message : PyVal) : Except PyErr PyVal :=
  match sanitize_message_try message with
  | .ok pm => .ok pm
  | .error _ => do
    let _ ← pyGet message "id" (.str "unknown")
    let i ← pyGet message "id" (.str (toString processedLen))
    let r ← pyGet message "role" (.str "unknown")
    let c ← pyGet message "content" (.str "メッセージの処理中にエラーが発生しました")
    pure (.dict [("id", i), ("role", r), ("content", c),
                 ("note", .str "メッセージ処理エラー")])

/-- One `for` iteration as a fold step: sanitize against the current
`processed_messages` and append. -/
def sanitize_step (acc : List PyVal) (m : PyVal) : Except PyErr (List PyVal) := do
  let pm ← sanitize_message acc.length m
  pure (acc ++ [pm])

/-- The message loop: build `processed_messages` left to right; an error
escaping `sanitize_message` aborts the loop and propagates. -/
def sanitize_messages (msgs : List PyVal) : Except PyErr (List PyVal) :=
  msgs.foldlM sanitize_step []

/-- `get_chat_messages(user_id, chat_id)` (lines 70-128): read the record,
default to `[]`, linear-scan for the first chat whose `id` equals
`chat_id`, take its `messages` (default `[]`); `if not target_messages:
return None`; otherwise sanitize each message.  `gF` models the
`get_item` call raising; the outer `except` re-raises, so errors
propagate. -/
def get_chat_messages (store : Store) (gF : Bool) (uid : String) (cid : PyVal) :
    Except PyErr (Option (List PyVal)) :=
  if gF then .error .other
  else
    let all_chats := (lookupRec store uid).getD []
    let target_messages :=
      ((all_chats.find? (fun c => pyEqStr cid c.id)).map Chat.messages).getD []
    if target_messages.isEmpty then .ok Option.none
    else
      match sanitize_messages target_messages with
      | .error e => .error e
      | .ok pms => .ok (some pms)

/-- `delete_chat(user_id, chat_id)` (lines 130-164): read the record
(`False` when absent), filter out every chat whose `id` equals `chat_id`,
`False` when the length is unchanged, otherwise persist the reduced list
with one `update_item` keyed by `user_id` and return `True`.  Returns the
flag, the resulting store, and the performed operations; `gF`/`uF` model
the two store calls raising (a raising update does not mutate). -/
def delete_chat (store : Store) (gF uF : Bool) (uid : String) (cid : PyVal) :
    Except PyErr (Bool × Store × List StoreOp) :=
  if gF then .error .other
  else
    match lookupRec store uid with
    | Option.none => .ok (false, store, [StoreOp.getItem uid])
    | some all_chats =>
      let updated_chats := all_chats.filter (fun c => !(pyEqStr cid c.id))
      if updated_chats.length = all_chats.length then
        .ok (false, store, [StoreOp.getItem uid])
      else if uF then .error .other
      else
        .ok (true, storeUpdate store uid updated_chats,
             [StoreOp.getItem uid, StoreOp.updateChats uid updated_chats])

/-- Method detection (lines 184-214): `'httpMethod' in event` →
`event['httpMethod']`; else `'requestContext' in event and 'httpMethod'
in event['requestContext']` → that; else the same two guards plus
`'http' in ...` and `'method' in ...` → that; else (`resource` branch
only logs) the method stays `None`. -/
def detect_http_method (event : PyVal) : Except PyErr PyVal :=
  match pyIn "httpMethod" event with
  | .error e => .error e
  | .ok true => pyIndex event "httpMethod"
  | .ok false =>
    match pyIn "requestContext" event with
    | .error e => .error e
    | .ok hrc =>
      match (if hrc then
               (match pyIndex event "requestContext" with
                | .error e => .error e
                | .ok rc => pyIn "httpMethod" rc : Except PyErr Bool)
             else .ok false) with
      | .error e => .error e
      | .ok true =>
        (match pyIndex event "requestContext" with
         | .error e => .error e
         | .ok rc => pyIndex rc "httpMethod")
      | .ok false =>
        match (if hrc then
                 (match pyIndex event "requestContext" with
                  | .error e => .error e
                  | .ok rc =>
                    match pyIn "http" rc with
                    | .error e => .error e
                    | .ok true =>
                      (match pyIndex rc "http" with
                       | .error e => .error e
                       | .ok http => pyIn "method" http)
                    | .ok false => .ok false : Except PyErr Bool)
               else .ok false) with
        | .error e => .error e
        | .ok true =>
          (match pyIndex event "requestContext" with
           | .error e => .error e
           | .ok rc =>
             match pyIndex rc "http" with
             | .error e => .error e
             | .ok http => pyIndex http "method")
        | .ok false => .ok PyVal.none

/-- `event['requestContext']['authorizer']['jwt']['claims']['sub']`
(line 242). -/
def extract_user_id (event : PyVal) : Except PyErr PyVal :=
  match pyIndex event "requestContext" with
  | .error e => .error e
  | .ok rc =>
    match pyIndex rc "authorizer" with
    | .error e => .error e
    | .ok az =>
      match pyIndex az "jwt" with
      | .error e => .error e
      | .ok jwt =>
        match pyIndex jwt "claims" with
        | .error e => .error e
        | .ok cl => pyIndex cl "sub"

/-- `event['pathParameters']['chatId']` (lines 257 / 286). -/
def extract_chat_id (event : PyVal) : Except PyErr PyVal :=
  match pyIndex event "pathParameters" with
  | .error e => .error e
  | .ok pp => pyIndex pp "chatId"

/-- The exception classes caught by `except (KeyError, TypeError)`. -/
def isAuthErr : PyErr → Bool
  | .keyError _ => true
  | .typeError => true
  | _ => false

/-- The partition-key value handed to boto3 must be a string; anything
else raises a parameter-validation error inside the store call. -/
def getUid : PyVal → Except PyErr String
  | .str s => .ok s
  | _ => .error .other

/-- CORS headers of the detail handler (lines 170-175). -/
def cors_headers : List (String × String) :=
  [("Content-Type", "application/json"),
   ("Access-Control-Allow-Origin", "*"),
   ("Access-Control-Allow-Headers", "Content-Type,Authorization"),
   ("Access-Control-Allow-Methods", "GET,DELETE,OPTIONS")]

/-- A handler response: status code, headers, and the Python value handed
to `json.dumps` as the body (the empty string for the preflight reply). -/
structure HResponse where
  statusCode : Nat
  headers : List (String × String)
  body : PyVal

/-- The tail of the GET branch (lines 267-280): call `get_chat_messages`
and turn `None` into 404, a message list into 200. -/
def handle_get (store : Store) (gF : Bool) (uid : String) (cid : PyVal) :
    Except PyErr (HResponse × Store × List StoreOp) :=
  match get_chat_messages store gF uid cid with
  | .error e => .error e
  | .ok Option.none =>
    .ok ({statusCode := 404, headers := cors_headers,
          body := .dict [("error", .str "Chat not found")]},
         store, [StoreOp.getItem uid])
  | .ok (some pms) =>
    .ok ({statusCode := 200, headers := cors_headers, body := .list pms},
         store, [StoreOp.getItem uid])

/-- The tail of the DELETE branch (lines 296-309): call `delete_chat` and
turn `False` into 404, `True` into the 200 success response. -/
def handle_delete (store : Store) (gF uF : Bool) (uid : String) (cid : PyVal) :
    Except PyErr (HResponse × Store × List StoreOp) :=
  match delete_chat store gF uF uid cid with
  | .error e => .error e
  | .ok (success, store2, ops) =>
    if !success then
      .ok ({statusCode := 404, headers := cors_headers,
            body := .dict [("error", .str "Chat not found or already deleted")]},
           store2, ops)
    else
      .ok ({statusCode := 200, headers := cors_headers,
            body := .dict [("success", .bool true),
                           ("message", .str "Chat deleted successfully")]},
           store2, ops)

/-- The `except (KeyError, TypeError)` block around the `chatId` path
parameter (lines 259-265 / 288-294): log `event.get('pathParameters', {})`
(which can itself raise) and answer 400. -/
def chat_id_error (event : PyVal) (store : Store) (e : PyErr) :
    Except PyErr (HResponse × Store × List StoreOp) :=
  if isAuthErr e then
    match pyGet event "pathParameters" (.dict []) with
    | .error e2 => .error e2
    | .ok _ =>
      .ok ({statusCode := 400, headers := cors_headers,
            body := .dict [("error", .str "Chat ID not found in path parameters")]},
           store, [])
  else .error e

/-- Body of the big `try` block of the detail handler's `lambda_handler`
(lines 177-318), returning the response together with the store state and
performed store operations.  Any escaping `PyErr` reaches the boundary
handlers (`except KeyError` → 400, `except Exception` → 500). -/
def lambda_handler_body (event : PyVal) (store : Store) (gF uF : Bool) :
    Except PyErr (HResponse × Store × List StoreOp) :=
  match detect_http_method event with
  | .error e => .error e
  | .ok m0 =>
    match (if pyTruthy m0 then pyUpper m0 else .ok m0) with
    | .error e => .error e
    | .ok http_method =>
      if pyEqStr http_method "OPTIONS" then
        .ok ({statusCode := 200, headers := cors_headers, body := .str ""}, store, [])
      else if !pyTruthy http_method then
        match pyKeys event with
        | .error e => .error e
        | .ok eventKeys =>
          match pyIn "requestContext" event with
          | .error e => .error e
          | .ok hrc =>
            match (if hrc then
                     (match pyGet event "requestContext" (.dict []) with
                      | .error e => .error e
                      | .ok rc =>
                        match pyKeys rc with
                        | .error e => .error e
                        | .ok ks => .ok (PyVal.list (ks.map PyVal.str)) :
                        Except PyErr PyVal)
                   else .ok PyVal.none) with
            | .error e => .error e
            | .ok rcKeys =>
              .ok ({statusCode := 400, headers := cors_headers,
                    body := .dict [("error", .str "HTTP method not found in request"),
                                   ("debug", .dict [("eventKeys", .list (eventKeys.map PyVal.str)),
                                                    ("requestContextKeys", rcKeys)])]},
                   store, [])
      else
        match extract_user_id event with
        | .error e =>
          if isAuthErr e then
            match pyGet event "requestContext" (.dict []) with
            | .error e2 => .error e2
            | .ok _ =>
              .ok ({statusCode := 401, headers := cors_headers,
                    body := .dict [("error", .str "Authentication failed")]}, store, [])
          else .error e
        | .ok user_id_v =>
          if pyEqStr http_method "GET" then
            match extract_chat_id event with
            | .error e => chat_id_error event store e
            | .ok cid =>
              match getUid user_id_v with
              | .error e => .error e
              | .ok uid => handle_get store gF uid cid
          else if pyEqStr http_method "DELETE" then
            match extract_chat_id event with
            | .error e => chat_id_error event store e
            | .ok cid =>
              match getUid user_id_v with
              | .error e => .error e
              | .ok uid => handle_delete store gF uF uid cid
          else
            .ok ({statusCode := 405, headers := cors_headers,
                  body := .dict [("error",
                    .str ("Method " ++ fstr http_method ++ " not allowed"))]},
                 store, [])

/-- The boundary `except KeyError` (→ 400 naming the key, lines 320-326)
and `except Exception` (→ 500, lines 328-337) of the detail handler.  An
escaping error never follows a successful update, so the store is
returned unchanged and no operation trace is reported. -/
def handler_boundary (store : Store) (x : Except PyErr (HResponse × Store × List StoreOp)) :
    HResponse × Store × List StoreOp :=
  match x with
  | .ok r => r
  | .error (.keyError k) =>
    ({statusCode := 400, headers := cors_headers,
      body := .dict [("error", .str ("Missing required parameters: \x27" ++ k ++ "\x27"))]},
     store, [])
  | .error _ =>
    ({statusCode := 500, headers := cors_headers,
      body := .dict [("error", .str "Internal server error")]}, store, [])

/-- The detail handler's `lambda_handler` (lines 166-337). -/
def lambda_handler (event : PyVal) (store : Store) (gF uF : Bool) :
    HResponse × Store × List StoreOp :=
  handler_boundary store (lambda_handler_body event store gF uF)

/-- Success headers of the list handler (lines 30-35). -/
def getchats_headers : List (String × String) :=
  [("Content-Type", "application/json"),
   ("Access-Control-Allow-Origin", "*"),
   ("Access-Control-Allow-Headers", "Content-Type,Authorization"),
   ("Access-Control-Allow-Methods", "GET,OPTIONS")]

/-- Error headers of the list handler (lines 42-45). -/
def getchats_err_headers : List (String × String) :=
  [("Content-Type", "application/json"),
   ("Access-Control-Allow-Origin", "*")]

/-- `try` body of the list handler's `lambda_handler` (lines 12-37):
identity claim, `get_item`, default `[]`, projection of each chat to
`{'id': ..., 'title': ...}` in stored order, 200 response. -/
def getchats_lambda_handler_body (event : PyVal) (store : Store) (gF : Bool) :
    Except PyErr HResponse :=
  match extract_user_id event with
  | .error e => .error e
  | .ok uidv =>
    match getUid uidv with
    | .error e => .error e
    | .ok uid =>
      if gF then .error .other
      else
        let all_chats := (lookupRec store uid).getD []
        let items := all_chats.map
          (fun c => PyVal.dict [("id", .str c.id), ("title", .str c.title)])
        .ok {statusCode := 200, headers := getchats_headers, body := .list items}

/-- The list handler's `lambda_handler` (ChatListHandler, lines 11-47):
any exception is caught by the blanket `except` and converted to the
generic 500 response. -/
def getchats_lambda_handler (event : PyVal) (store : Store) (gF : Bool) : HResponse :=
  match getchats_lambda_handler_body event store gF with
  | .ok r => r
  | .error _ =>
    {statusCode := 500, headers := getchats_err_headers,
     body := .dict [("error", .str "Internal server error")]}

/-- A well-formed authorization context carrying the verified identity
claim at `authorizer.jwt.claims.sub`. -/
def mkAuthCtx (uid : String) : PyVal :=
  .dict [("authorizer", .dict [("jwt", .dict [("claims", .dict [("sub", .str uid)])])])]

/-- A well-formed list-handler invocation event for user `uid`. -/
def mkListEvent (uid : String) : PyVal :=
  .dict [("requestContext", mkAuthCtx uid)]

/-- A well-formed detail-handler invocation event with a top-level
`httpMethod`, an authorization context for `uid`, and path parameter
`chatId = cid`. -/
def mkDetailEvent (method uid cid : String) : PyVal :=
  .dict [("httpMethod", .str method),
         ("requestContext", mkAuthCtx uid),
         ("pathParameters", .dict [("chatId", .str cid)])]

/-- A well-formed GET invocation of the detail handler. -/
def mkGetEvent (uid cid : String) : PyVal :=
  mkDetailEvent "GET" uid cid

/-- A well-formed DELETE invocation of the detail handler. -/
def mkDeleteEvent (uid cid : String) : PyVal :=
  mkDetailEvent "DELETE" uid cid

/-- Modelled from the spec's words (§4.2), for comparison with the code's
`detect_http_method`: probe, in fixed priority order, a top-level
`httpMethod` field, then one nested a level inside the invocation
metadata, then a `method` field two levels inside; take the first probe
that yields a value. -/
def spec_probe_method (kvs : List (String × PyVal)) : Option PyVal :=
  match dictLookup kvs "httpMethod" with
  | some v => some v
  | Option.none =>
    match dictLookup kvs "requestContext" with
    | some (.dict rc) =>
      (match dictLookup rc "httpMethod" with
       | some v => some v
       | Option.none =>
         match dictLookup rc "http" with
         | some (.dict h) => dictLookup h "method"
         | _ => Option.none)
    | _ => Option.none

/-! ### Helper lemmas -/

/-- The list handler on a well-formed event with the store available. -/
theorem getchats_on_mkListEvent (uid : String) (store : Store) :
    getchats_lambda_handler (mkListEvent uid) store false =
      {statusCode := 200, headers := getchats_headers,
       body := .list (((lookupRec store uid).getD []).map
         (fun c => PyVal.dict [("id", .str c.id), ("title", .str c.title)]))} := rfl

/-- A demonstration store: user u1 with two chats. -/
def demoStore : Store :=
  [("u1", [⟨"c1", "T1", [PyVal.dict [("id", .str "m1"), ("role", .str "user"), ("content", .str "hi")]]⟩,
           ⟨"c2", "T2", [PyVal.dict [("id", .str "m2"), ("role", .str "assistant"), ("content", .str "yo")]]⟩])]

/-- C5: list handler returns 200 with one {id,title} pair per chat in stored
order; empty list when the record is absent or has no chats. -/
theorem C5_chat_list_projection (uid : String) (store : Store) :
    (getchats_lambda_handler (mkListEvent uid) store false).statusCode = 200 ∧
    (∀ chats, lookupRec store uid = some chats →
      (getchats_lambda_handler (mkListEvent uid) store false).body =
        .list (chats.map (fun c => PyVal.dict [("id", .str c.id), ("title", .str c.title)])) ∧
      (chats.map (fun c => PyVal.dict [("id", .str c.id), ("title", .str c.title)])).length
        = chats.length) ∧
    (lookupRec store uid = Option.none ∨ lookupRec store uid = some [] →
      (getchats_lambda_handler (mkListEvent uid) store false).body = .list []) := by
  refine ⟨rfl, ?_, ?_⟩
  · intro chats h
    rw [getchats_on_mkListEvent, h]
    exact ⟨rfl, chats.length_map _⟩
  · intro h
    rw [getchats_on_mkListEvent]
    rcases h with h | h <;> rw [h] <;> rfl

theorem C5_witness :
    ((getchats_lambda_handler (mkListEvent "u1") demoStore false).statusCode = 200 ∧
     lookupRec demoStore "u1" = some [⟨"c1", "T1", [PyVal.dict [("id", .str "m1"), ("role", .str "user"), ("content", .str "hi")]]⟩,
           ⟨"c2", "T2", [PyVal.dict [("id", .str "m2"), ("role", .str "assistant"), ("content", .str "yo")]]⟩] ∧
     (getchats_lambda_handler (mkListEvent "u1") demoStore false).body =
       .list [.dict [("id", .str "c1"), ("title", .str "T1")],
              .dict [("id", .str "c2"), ("title", .str "T2")]]) ∧
    (lookupRec ([] : Store) "u2" = Option.none ∧
     (getchats_lambda_handler (mkListEvent "u2") ([] : Store) false).body = .list []) := by
  constructor
  · refine ⟨(C5_chat_list_projection "u1" demoStore).1, rfl, ?_⟩
    exact ((C5_chat_list_projection "u1" demoStore).2.1 _ rfl).1
  · exact ⟨rfl, (C5_chat_list_projection "u2" []).2.2 (Or.inl rfl)⟩

/-- C9: DecimalEncoder converts a whole decimal to the exact integer and
any other decimal to a float. -/
theorem C9_decimal_encoder (q : ℚ) :
    (q.den = 1 → DecimalEncoder_default q = .int q.num ∧ (q.num : ℚ) = q) ∧
    (q.den ≠ 1 → DecimalEncoder_default q = .float q) := by
  constructor
  · intro h
    refine ⟨by simp [DecimalEncoder_default, h], ?_⟩
    rw [← Rat.num_div_den q, h]
    norm_num
  · intro h
    simp [DecimalEncoder_default, h]

theorem C9_witness :
    ((3 : ℚ).den = 1 ∧ DecimalEncoder_default 3 = .int (3 : ℚ).num ∧ (((3 : ℚ).num : ℚ) = 3)) ∧
    ((mkRat 5 2).den ≠ 1 ∧ DecimalEncoder_default (mkRat 5 2) = .float (mkRat 5 2)) := by
  constructor
  · have h : (3 : ℚ).den = 1 := by decide
    exact ⟨h, (C9_decimal_encoder 3).1 h⟩
  · have h : (mkRat 5 2).den ≠ 1 := by decide
    exact ⟨h, (C9_decimal_encoder (mkRat 5 2)).2 h⟩

/-! ### DELETE path characterization -/

theorem pyEqStr_str (t s : String) : pyEqStr (.str t) s = (t == s) := rfl

/-- The detail handler on a well-formed DELETE event reduces to the
DELETE tail. -/
theorem lambda_handler_on_mkDeleteEvent (uid cid : String) (store : Store) (gF uF : Bool) :
    lambda_handler (mkDeleteEvent uid cid) store gF uF =
      handler_boundary store (handle_delete store gF uF uid (.str cid)) := rfl

/-- The detail handler on a well-formed GET event reduces to the GET tail. -/
theorem lambda_handler_on_mkGetEvent (uid cid : String) (store : Store) (gF uF : Bool) :
    lambda_handler (mkGetEvent uid cid) store gF uF =
      handler_boundary store (handle_get store gF uid (.str cid)) := rfl

theorem delete_chat_of_absent (store : Store) (uid : String) (cid : PyVal)
    (h : lookupRec store uid = Option.none) :
    delete_chat store false false uid cid = .ok (false, store, [StoreOp.getItem uid]) := by
  simp [delete_chat, h]

theorem delete_chat_of_nomatch (store : Store) (uid : String) (chats : List Chat) (cid : PyVal)
    (h : lookupRec store uid = some chats) (h2 : ∀ c ∈ chats, ¬ pyEqStr cid c.id) :
    delete_chat store false false uid cid = .ok (false, store, [StoreOp.getItem uid]) := by
  have hf : chats.filter (fun c => !(pyEqStr cid c.id)) = chats :=
    List.filter_eq_self.mpr (fun a ha => by simp [h2 a ha])
  simp [delete_chat, h, hf]

theorem delete_chat_of_match (store : Store) (uid : String) (chats : List Chat) (cid : PyVal)
    (h : lookupRec store uid = some chats) (h2 : ∃ c ∈ chats, pyEqStr cid c.id) :
    delete_chat store false false uid cid =
      .ok (true, storeUpdate store uid (chats.filter (fun c => !(pyEqStr cid c.id))),
           [StoreOp.getItem uid,
            StoreOp.updateChats uid (chats.filter (fun c => !(pyEqStr cid c.id)))]) := by
  have hne : ¬((chats.filter (fun c => !(pyEqStr cid c.id))).length = chats.length) := by
    intro heq
    obtain ⟨c, hc, hpc⟩ := h2
    have := List.filter_length_eq_length.mp heq c hc
    simp [hpc] at this
  simp [delete_chat, h, hne]

/-- Replacing the record of `uid` makes `find?` return it. -/
theorem find_replace_of_any (uid : String) (chats : List Chat) :
    ∀ l : List (String × List Chat), l.any (fun p => p.1 == uid) = true →
      (l.map (fun p => if p.1 == uid then (uid, chats) else p)).find?
          (fun p => p.1 == uid) = some (uid, chats)
  | [], h => by simp at h
  | hd :: tl, h => by
    by_cases hd1 : (hd.1 == uid) = true
    · rw [List.map_cons, if_pos hd1]
      exact List.find?_cons_of_pos _ (by simp)
    · rw [List.map_cons, if_neg hd1,
          List.find?_cons_of_neg _ (by simpa using hd1)]
      apply find_replace_of_any uid chats tl
      rcases List.any_eq_true.mp h with ⟨x, hx, hpx⟩
      rcases List.mem_cons.mp hx with hx | hx
      · subst hx; exact absurd hpx hd1
      · exact List.any_eq_true.mpr ⟨x, hx, hpx⟩

/-- After `update_item`, the record holds exactly the written chats. -/
theorem lookupRec_storeUpdate_self (store : Store) (uid : String) (chats : List Chat) :
    lookupRec (storeUpdate store uid chats) uid = some chats := by
  unfold storeUpdate
  by_cases hany : store.any (fun p => p.1 == uid) = true
  · rw [if_pos hany]
    unfold lookupRec
    rw [find_replace_of_any uid chats store hany]
    rfl
  · rw [if_neg hany]
    unfold lookupRec
    rw [List.find?_append]
    have hnone : store.find? (fun p => p.1 == uid) = Option.none :=
      List.find?_eq_none.mpr (fun x hx hpx => hany (List.any_eq_true.mpr ⟨x, hx, hpx⟩))
    rw [hnone]
    simp [List.find?]

theorem beq_str_comm (a b : String) : (a == b) = (b == a) := by
  rcases eq_or_ne a b with h | h
  · subst h; rfl
  · rw [beq_eq_false_iff_ne.mpr h, beq_eq_false_iff_ne.mpr (Ne.symm h)]

theorem countP_not_add_countP (p : α → Bool) :
    ∀ l : List α, l.countP (fun a => !p a) + l.countP p = l.length
  | [] => rfl
  | a :: t => by
    cases hp : p a <;>
      simp [List.countP_cons, hp, ← countP_not_add_countP p t] <;> omega

/-- The 404 response of the DELETE branch. -/
def del404resp : HResponse :=
  {statusCode := 404, headers := cors_headers,
   body := .dict [("error", .str "Chat not found or already deleted")]}

/-- The 200 success response of the DELETE branch. -/
def del200resp : HResponse :=
  {statusCode := 200, headers := cors_headers,
   body := .dict [("success", .bool true), ("message", .str "Chat deleted successfully")]}

/-- No chat of the record of `uid` (when a record exists) has id `cid`. -/
def noChat (store : Store) (uid cid : String) : Prop :=
  ∀ chats, lookupRec store uid = some chats → ∀ c ∈ chats, c.id ≠ cid

/-- DELETE of an absent chat id: 404, store untouched, read-only trace. -/
theorem delete_handler_404 (uid cid : String) (store : Store) (h : noChat store uid cid) :
    lambda_handler (mkDeleteEvent uid cid) store false false =
      (del404resp, store, [StoreOp.getItem uid]) := by
  rw [lambda_handler_on_mkDeleteEvent]
  cases hl : lookupRec store uid with
  | none =>
    unfold handle_delete
    rw [delete_chat_of_absent store uid _ hl]
    rfl
  | some chats =>
    unfold handle_delete
    rw [delete_chat_of_nomatch store uid chats _ hl ?h2]
    case h2 =>
      intro c hc hpc
      rw [pyEqStr_str] at hpc
      have hcid : cid = c.id := by simpa using hpc
      exact h chats hl c hc hcid.symm
    rfl

/-- DELETE of a present chat id: 200 success, the filtered list persisted
by exactly one update keyed by `uid`. -/
theorem delete_handler_200 (uid cid : String) (store : Store) (chats : List Chat)
    (h : lookupRec store uid = some chats) (hm : ∃ c ∈ chats, c.id = cid) :
    lambda_handler (mkDeleteEvent uid cid) store false false =
      (del200resp,
       storeUpdate store uid (chats.filter (fun c => !(pyEqStr (.str cid) c.id))),
       [StoreOp.getItem uid,
        StoreOp.updateChats uid (chats.filter (fun c => !(pyEqStr (.str cid) c.id)))]) := by
  rw [lambda_handler_on_mkDeleteEvent]
  unfold handle_delete
  rw [delete_chat_of_match store uid chats _ h ?hm]
  case hm =>
    obtain ⟨c, hc, hid⟩ := hm
    exact ⟨c, hc, by rw [pyEqStr_str]; simp [hid]⟩
  rfl

/-- After any DELETE run (with the store available), the resulting record
of `uid` no longer contains a chat with id `cid`. -/
theorem noChat_after_delete (uid cid : String) (store : Store) :
    noChat (lambda_handler (mkDeleteEvent uid cid) store false false).2.1 uid cid := by
  cases hl : lookupRec store uid with
  | none =>
    rw [delete_handler_404 uid cid store (fun ch hh => by rw [hl] at hh; cases hh)]
    intro chats h c hc
    rw [hl] at h
    cases h
  | some chats =>
    by_cases hmatch : ∃ c ∈ chats, c.id = cid
    · rw [delete_handler_200 uid cid store chats hl hmatch]
      intro chats2 h2 c hc
      have h3 : lookupRec (storeUpdate store uid
          (chats.filter (fun c => !(pyEqStr (.str cid) c.id)))) uid =
          some (chats.filter (fun c => !(pyEqStr (.str cid) c.id))) :=
        lookupRec_storeUpdate_self store uid _
      rw [h3] at h2
      cases h2
      have hm := (List.mem_filter.mp hc).2
      rw [pyEqStr_str] at hm
      simp only [Bool.not_eq_true', beq_eq_false_iff_ne] at hm
      exact Ne.symm hm
    · push_neg at hmatch
      rw [delete_handler_404 uid cid store
        (fun ch hh => by rw [hl] at hh; cases hh; exact hmatch)]
      intro chats2 h2 c hc
      rw [hl] at h2
      cases h2
      exact hmatch c hc

/-! ### C1, C2, C10: DELETE claims -/

/-- C1: deleting a chat id that occurs exactly once removes the matching
element, shrinks the stored list by exactly one, persists it with a single
update keyed by the user id, and answers 200 success. -/
theorem C1_delete_present_removes_one (uid cid : String) (store : Store) (chats : List Chat)
    (h : lookupRec store uid = some chats)
    (huniq : chats.countP (fun c => c.id == cid) = 1) :
    lambda_handler (mkDeleteEvent uid cid) store false false =
      (del200resp,
       storeUpdate store uid (chats.filter (fun c => !(pyEqStr (.str cid) c.id))),
       [StoreOp.getItem uid,
        StoreOp.updateChats uid (chats.filter (fun c => !(pyEqStr (.str cid) c.id)))]) ∧
    del200resp.statusCode = 200 ∧
    (chats.filter (fun c => !(pyEqStr (.str cid) c.id))).length + 1 = chats.length ∧
    (∀ c ∈ chats.filter (fun c => !(pyEqStr (.str cid) c.id)), c.id ≠ cid) ∧
    lookupRec (lambda_handler (mkDeleteEvent uid cid) store false false).2.1 uid =
      some (chats.filter (fun c => !(pyEqStr (.str cid) c.id))) := by
  have hm : ∃ c ∈ chats, c.id = cid := by
    have hpos : 0 < chats.countP (fun c => c.id == cid) := by omega
    obtain ⟨c, hc, hp⟩ := List.countP_pos_iff.mp hpos
    exact ⟨c, hc, by simpa using hp⟩
  have hrun := delete_handler_200 uid cid store chats h hm
  refine ⟨hrun, rfl, ?_, ?_, ?_⟩
  · have halign : (fun c : Chat => !(pyEqStr (.str cid) c.id))
        = (fun c => !(c.id == cid)) := by
      funext c
      rw [pyEqStr_str, beq_str_comm]
    rw [halign]
    have h1 : (chats.filter (fun c => !(c.id == cid))).length
        = chats.countP (fun c => !(c.id == cid)) := by
      rw [List.countP_eq_length_filter]
    have h2 := countP_not_add_countP (fun c : Chat => (c.id == cid)) chats
    omega
  · intro c hc
    have hm2 := (List.mem_filter.mp hc).2
    rw [pyEqStr_str] at hm2
    simp only [Bool.not_eq_true', beq_eq_false_iff_ne] at hm2
    exact Ne.symm hm2
  · rw [hrun]
    exact lookupRec_storeUpdate_self store uid _

/-- The fixed demonstration chats of user u1. -/
def demoChats : List Chat :=
  [⟨"c1", "T1", [PyVal.dict [("id", .str "m1"), ("role", .str "user"), ("content", .str "hi")]]⟩,
   ⟨"c2", "T2", [PyVal.dict [("id", .str "m2"), ("role", .str "assistant"), ("content", .str "yo")]]⟩]

theorem C1_witness :
    lookupRec demoStore "u1" = some demoChats ∧
    demoChats.countP (fun c => c.id == "c1") = 1 ∧
    (lambda_handler (mkDeleteEvent "u1" "c1") demoStore false false).1.statusCode = 200 ∧
    (lambda_handler (mkDeleteEvent "u1" "c1") demoStore false false).2.1 =
      [("u1", [⟨"c2", "T2", [PyVal.dict [("id", .str "m2"), ("role", .str "assistant"),
                                         ("content", .str "yo")]]⟩])] := by
  have h := C1_delete_present_removes_one "u1" "c1" demoStore demoChats rfl (by decide)
  refine ⟨rfl, by decide, ?_, ?_⟩
  · rw [h.1]
    rfl
  · rw [h.1]
    rfl

/-- C2: a DELETE for a chat id not present in the record (in particular
when the record is absent, or on a second deletion of the same id) writes
nothing, leaves the store unchanged, and answers 404. -/
theorem C2_delete_absent_404_no_write (uid cid : String) (store : Store) :
    (noChat store uid cid →
      lambda_handler (mkDeleteEvent uid cid) store false false =
        (del404resp, store, [StoreOp.getItem uid]) ∧ del404resp.statusCode = 404) ∧
    lambda_handler (mkDeleteEvent uid cid)
        (lambda_handler (mkDeleteEvent uid cid) store false false).2.1 false false =
      (del404resp, (lambda_handler (mkDeleteEvent uid cid) store false false).2.1,
       [StoreOp.getItem uid]) := by
  constructor
  · intro hno
    exact ⟨delete_handler_404 uid cid store hno, rfl⟩
  · exact delete_handler_404 uid cid _ (noChat_after_delete uid cid store)

theorem C2_witness :
    noChat demoStore "u1" "zz" ∧
    lambda_handler (mkDeleteEvent "u1" "zz") demoStore false false =
      (del404resp, demoStore, [StoreOp.getItem "u1"]) := by
  have hno : noChat demoStore "u1" "zz" := by
    intro chats h
    rw [show lookupRec demoStore "u1" = some demoChats from rfl] at h
    injection h with h2
    subst h2
    decide
  exact ⟨hno, ((C2_delete_absent_404_no_write "u1" "zz" demoStore).1 hno).1⟩

/-- C10: a successful DELETE removes every chat whose id equals the
requested id — even duplicates — and keeps the remaining chats in their
original relative order. -/
theorem C10_delete_removes_all_matches (uid cid : String) (store : Store) (chats : List Chat)
    (h : lookupRec store uid = some chats) (hm : ∃ c ∈ chats, c.id = cid) :
    lambda_handler (mkDeleteEvent uid cid) store false false =
      (del200resp,
       storeUpdate store uid (chats.filter (fun c => !(pyEqStr (.str cid) c.id))),
       [StoreOp.getItem uid,
        StoreOp.updateChats uid (chats.filter (fun c => !(pyEqStr (.str cid) c.id)))]) ∧
    lookupRec (lambda_handler (mkDeleteEvent uid cid) store false false).2.1 uid =
      some (chats.filter (fun c => !(pyEqStr (.str cid) c.id))) ∧
    (∀ c ∈ chats.filter (fun c => !(pyEqStr (.str cid) c.id)), c.id ≠ cid) ∧
    (chats.filter (fun c => !(pyEqStr (.str cid) c.id))).Sublist chats := by
  have hrun := delete_handler_200 uid cid store chats h hm
  refine ⟨hrun, ?_, ?_, List.filter_sublist chats⟩
  · rw [hrun]
    exact lookupRec_storeUpdate_self store uid _
  · intro c hc
    have hm2 := (List.mem_filter.mp hc).2
    rw [pyEqStr_str] at hm2
    simp only [Bool.not_eq_true', beq_eq_false_iff_ne] at hm2
    exact Ne.symm hm2

/-- A store whose record violates the chat-id uniqueness invariant. -/
def dupStore : Store :=
  [("u", [⟨"c", "A", []⟩, ⟨"d", "B", []⟩, ⟨"c", "C", []⟩])]

theorem C10_witness :
    lookupRec dupStore "u" = some [⟨"c", "A", []⟩, ⟨"d", "B", []⟩, ⟨"c", "C", []⟩] ∧
    (⟨"c", "A", []⟩ : Chat) ∈ [(⟨"c", "A", []⟩ : Chat), ⟨"d", "B", []⟩, ⟨"c", "C", []⟩] ∧
    (lambda_handler (mkDeleteEvent "u" "c") dupStore false false).2.1 =
      [("u", [⟨"d", "B", []⟩])] ∧
    (lambda_handler (mkDeleteEvent "u" "c") dupStore false false).1.statusCode = 200 := by
  have h := C10_delete_removes_all_matches "u" "c" dupStore
    [⟨"c", "A", []⟩, ⟨"d", "B", []⟩, ⟨"c", "C", []⟩] rfl
    ⟨⟨"c", "A", []⟩, List.mem_cons_self _ _, rfl⟩
  refine ⟨rfl, List.mem_cons_self _ _, ?_, ?_⟩
  · rw [h.1]
    rfl
  · rw [h.1]
    rfl

/-! ### Sanitization lemmas and C3 / C4 -/

/-- A value that is a Python dict. -/
def isDictVal (v : PyVal) : Prop := ∃ kvs, v = .dict kvs

/-- A dict message is always sanitized successfully: either the `try`
body succeeds, or the placeholder path (whose `message.get` calls are
total on dicts) produces the substitute. -/
theorem sanitize_message_of_dict (n : Nat) (kvs : List (String × PyVal)) :
    ∃ pm, sanitize_message n (.dict kvs) = .ok pm := by
  cases h : sanitize_message_try (.dict kvs) with
  | ok pm =>
    refine ⟨pm, ?_⟩
    unfold sanitize_message
    rw [h]
  | error e =>
    refine ⟨.dict [("id", (dictLookup kvs "id").getD (.str (toString n))),
                   ("role", (dictLookup kvs "role").getD (.str "unknown")),
                   ("content", (dictLookup kvs "content").getD
                     (.str "メッセージの処理中にエラーが発生しました")),
                   ("note", .str "メッセージ処理エラー")], ?_⟩
    unfold sanitize_message
    rw [h]
    rfl

theorem sanitize_step_of_dict (acc : List PyVal) (kvs : List (String × PyVal)) :
    ∃ pm, sanitize_step acc (.dict kvs) = .ok (acc ++ [pm]) := by
  obtain ⟨pm, hpm⟩ := sanitize_message_of_dict acc.length kvs
  refine ⟨pm, ?_⟩
  unfold sanitize_step
  rw [hpm]
  rfl

theorem sanitize_fold_all_dict :
    ∀ (msgs : List PyVal) (acc : List PyVal), (∀ m ∈ msgs, isDictVal m) →
      ∃ out, List.foldlM sanitize_step acc msgs = .ok (acc ++ out) ∧
        out.length = msgs.length ∧
        ∀ j (hj : j < msgs.length) (hj2 : j < out.length),
          sanitize_message (acc.length + j) (msgs.get ⟨j, hj⟩) = .ok (out.get ⟨j, hj2⟩)
  | [], acc, _ =>
    ⟨[], by simp; rfl, rfl, fun j hj _ => absurd hj (by simp)⟩
  | m :: rest, acc, h => by
    obtain ⟨kvs, hk⟩ := h m (List.mem_cons_self _ _)
    subst hk
    obtain ⟨pm, hm⟩ := sanitize_message_of_dict acc.length kvs
    have hstep : sanitize_step acc (.dict kvs) = .ok (acc ++ [pm]) := by
      unfold sanitize_step
      rw [hm]
      rfl
    obtain ⟨out, hfold, hlen, hcorr⟩ := sanitize_fold_all_dict rest (acc ++ [pm])
      (fun x hx => h x (List.mem_cons_of_mem _ hx))
    refine ⟨pm :: out, ?_, ?_, ?_⟩
    · rw [List.foldlM_cons, hstep]
      simpa [List.append_assoc] using hfold
    · simp [hlen]
    · intro j hj hj2
      cases j with
      | zero => simpa using hm
      | succ j2 =>
        have hj2a : j2 < rest.length := Nat.lt_of_succ_lt_succ hj
        have hj2b : j2 < out.length := Nat.lt_of_succ_lt_succ hj2
        have hx := hcorr j2 hj2a hj2b
        have harith : (acc ++ [pm]).length + j2 = acc.length + (j2 + 1) := by
          simp [List.length_append]
          omega
        rw [harith] at hx
        exact hx

/-- A batch of dict messages sanitizes without error, preserves length,
and, elementwise, the j-th output is the sanitization of the j-th source
message: the output is the sanitized sequence in original order. -/
theorem sanitize_messages_all_dict (msgs : List PyVal) (h : ∀ m ∈ msgs, isDictVal m) :
    ∃ pms, sanitize_messages msgs = .ok pms ∧ pms.length = msgs.length ∧
      ∀ j (hj : j < msgs.length) (hj2 : j < pms.length),
        sanitize_message j (msgs.get ⟨j, hj⟩) = .ok (pms.get ⟨j, hj2⟩) := by
  obtain ⟨out, h1, h2, h3⟩ := sanitize_fold_all_dict msgs [] h
  refine ⟨out, ?_, h2, ?_⟩
  · unfold sanitize_messages
    simpa using h1
  · intro j hj hj2
    simpa using h3 j hj hj2

/-- The 404 response of the GET branch. -/
def get404resp : HResponse :=
  {statusCode := 404, headers := cors_headers,
   body := .dict [("error", .str "Chat not found")]}

/-- GET answers 404 whenever the computed `target_messages` is empty:
record absent, no matching chat, or matching chat with empty messages. -/
theorem get_handler_404 (uid cid : String) (store : Store)
    (h : ((((lookupRec store uid).getD []).find?
        (fun c => pyEqStr (.str cid) c.id)).map Chat.messages).getD [] = []) :
    lambda_handler (mkGetEvent uid cid) store false false =
      (get404resp, store, [StoreOp.getItem uid]) := by
  rw [lambda_handler_on_mkGetEvent]
  unfold handle_get get_chat_messages
  simp only [Bool.false_eq_true, if_false, h, List.isEmpty_nil, if_true]
  rfl

/-- GET answers 200 with exactly the sanitized message list when a
matching chat with a nonempty message list is found. -/
theorem get_handler_200 (uid cid : String) (store : Store) (ch : Chat) (pms : List PyVal)
    (hfind : ((lookupRec store uid).getD []).find?
        (fun c => pyEqStr (.str cid) c.id) = some ch)
    (hne : ch.messages ≠ [])
    (hs : sanitize_messages ch.messages = .ok pms) :
    lambda_handler (mkGetEvent uid cid) store false false =
      ({statusCode := 200, headers := cors_headers, body := .list pms},
       store, [StoreOp.getItem uid]) := by
  rw [lambda_handler_on_mkGetEvent]
  unfold handle_get get_chat_messages
  simp only [Bool.false_eq_true, if_false, hfind, Option.map_some', Option.getD_some]
  rw [if_neg (by simpa [List.isEmpty_iff] using hne)]
  rw [hs]
  rfl

/-- C3 (amended): GET returns 404 when the record is absent, when no chat
matches, or when the matching chat's message list is empty; when the
first matching chat has a nonempty list of dict messages it returns 200
whose body is exactly the sanitized message sequence of that chat, in
original order — same length, and the j-th body element is the
sanitization of the j-th source message. -/
theorem C3_get_amended (uid cid : String) (store : Store) :
    (lookupRec store uid = Option.none →
      lambda_handler (mkGetEvent uid cid) store false false =
        (get404resp, store, [StoreOp.getItem uid])) ∧
    (∀ chats, lookupRec store uid = some chats →
      (chats.find? (fun c => pyEqStr (.str cid) c.id) = Option.none →
        lambda_handler (mkGetEvent uid cid) store false false =
          (get404resp, store, [StoreOp.getItem uid])) ∧
      (∀ ch, chats.find? (fun c => pyEqStr (.str cid) c.id) = some ch →
        (ch.messages = [] →
          lambda_handler (mkGetEvent uid cid) store false false =
            (get404resp, store, [StoreOp.getItem uid])) ∧
        (ch.messages ≠ [] → (∀ m ∈ ch.messages, isDictVal m) →
          ∃ pms, sanitize_messages ch.messages = .ok pms ∧
            lambda_handler (mkGetEvent uid cid) store false false =
              ({statusCode := 200, headers := cors_headers, body := .list pms},
               store, [StoreOp.getItem uid]) ∧
            pms.length = ch.messages.length ∧
            ∀ j (hj : j < ch.messages.length) (hj2 : j < pms.length),
              sanitize_message j (ch.messages.get ⟨j, hj⟩) =
                .ok (pms.get ⟨j, hj2⟩)))) := by
  refine ⟨?_, ?_⟩
  · intro h
    exact get_handler_404 uid cid store (by rw [h]; rfl)
  · intro chats hc
    refine ⟨?_, ?_⟩
    · intro hf
      exact get_handler_404 uid cid store (by rw [hc]; simp [hf])
    · intro ch hf
      refine ⟨?_, ?_⟩
      · intro hemp
        exact get_handler_404 uid cid store (by rw [hc]; simp [hf, hemp])
      · intro hne hdict
        obtain ⟨pms, hs, hlen, hcorr⟩ := sanitize_messages_all_dict ch.messages hdict
        exact ⟨pms, hs,
          get_handler_200 uid cid store ch pms (by rw [hc]; simpa using hf) hne hs,
          hlen, hcorr⟩

/-- A record whose chat c1 exists but has an empty message list. -/
def emptyMsgStore : Store := [("u1", [⟨"c1", "T1", []⟩])]

/-- C3 counterexample: the record of u1 contains a chat with the
requested id c1, yet GET answers 404, not 200 — the code conflates
"found but empty" with "not found". -/
theorem C3_counterexample :
    (∃ c ∈ (lookupRec emptyMsgStore "u1").getD [], c.id = "c1") ∧
    (lambda_handler (mkGetEvent "u1" "c1") emptyMsgStore false false).1.statusCode = 404 ∧
    (lambda_handler (mkGetEvent "u1" "c1") emptyMsgStore false false).1.statusCode ≠ 200 :=
  ⟨⟨⟨"c1", "T1", []⟩, List.mem_cons_self _ _, rfl⟩, rfl, by decide⟩

theorem C3_witness :
    lookupRec demoStore "u1" = some demoChats ∧
    demoChats.find? (fun c => pyEqStr (.str "c1") c.id) = some ⟨"c1", "T1",
      [PyVal.dict [("id", .str "m1"), ("role", .str "user"), ("content", .str "hi")]]⟩ ∧
    (lambda_handler (mkGetEvent "u1" "c1") demoStore false false).1.statusCode = 200 ∧
    (lambda_handler (mkGetEvent "u1" "c1") demoStore false false).1.body =
      .list [.dict [("id", .str "m1"), ("role", .str "user"), ("content", .str "hi")]] ∧
    lookupRec demoStore "u9" = Option.none ∧
    (lambda_handler (mkGetEvent "u9" "c1") demoStore false false).1.statusCode = 404 := by
  have h200 := (((C3_get_amended "u1" "c1" demoStore).2 demoChats rfl).2
    ⟨"c1", "T1", [PyVal.dict [("id", .str "m1"), ("role", .str "user"), ("content", .str "hi")]]⟩
    rfl).2 (by simp) (by intro m hm; fin_cases hm; exact ⟨_, rfl⟩)
  obtain ⟨pms, hsan, hrun, hlen, hcorr⟩ := h200
  have h404 := (C3_get_amended "u9" "c1" demoStore).1 rfl
  refine ⟨rfl, rfl, ?_, ?_, rfl, ?_⟩
  · rw [hrun]
  · rw [hrun]
    have : pms = [.dict [("id", .str "m1"), ("role", .str "user"), ("content", .str "hi")]] := by
      have := hrun
      rw [show lambda_handler (mkGetEvent "u1" "c1") demoStore false false =
        ({statusCode := 200, headers := cors_headers,
          body := .list [.dict [("id", .str "m1"), ("role", .str "user"),
                               ("content", .str "hi")]]},
         demoStore, [StoreOp.getItem "u1"]) from rfl] at this
      cases this
      rfl
    rw [this]
  · rw [h404]
    rfl

/-- A message whose attachment is a (truthy) non-dict value. -/
def mBadAtt : PyVal :=
  .dict [("id", .str "m1"), ("role", .str "user"), ("content", .str "hi"),
         ("attachment", .str "bad")]

/-- A well-formed message. -/
def mGood : PyVal :=
  .dict [("id", .str "m2"), ("role", .str "assistant"), ("content", .str "yo")]

/-- A record whose chat holds a malformed-attachment message, a non-dict
message, and a good message. -/
def badMsgStore : Store :=
  [("u1", [⟨"c1", "T1", [mBadAtt, .str "oops", mGood]⟩])]

/-- C4: a malformed attachment is indeed absorbed into a placeholder with
`note` set and `id`/`role` preserved, but a message that is itself not a
dict makes the placeholder path raise again (`message.get` on a
non-dict), aborting the whole batch and turning the GET into a 500 — the
subsequent good message is never processed. -/
theorem C4_sanitize_fault_isolation :
    sanitize_messages [mBadAtt, mGood] =
      .ok [.dict [("id", .str "m1"), ("role", .str "user"), ("content", .str "hi"),
                  ("note", .str "メッセージ処理エラー")],
           .dict [("id", .str "m2"), ("role", .str "assistant"), ("content", .str "yo")]] ∧
    sanitize_messages [mBadAtt, .str "oops", mGood] = .error .attributeError ∧
    (lambda_handler (mkGetEvent "u1" "c1") badMsgStore false false).1.statusCode = 500 :=
  ⟨rfl, rfl, rfl⟩

/-! ### C7: authentication failure -/

/-- Subscripting only raises `KeyError` or `TypeError`. -/
theorem pyIndex_err (v : PyVal) (k : String) (e : PyErr)
    (h : pyIndex v k = .error e) : isAuthErr e = true := by
  cases v with
  | dict kvs =>
    unfold pyIndex at h
    dsimp only at h
    cases hd : dictLookup kvs k with
    | some x => rw [hd] at h; cases h
    | none => rw [hd] at h; injection h with h2; subst h2; rfl
  | none => injection h with h2; subst h2; rfl
  | bool b => injection h with h2; subst h2; rfl
  | int n => injection h with h2; subst h2; rfl
  | dec q => injection h with h2; subst h2; rfl
  | str s => injection h with h2; subst h2; rfl
  | list xs => injection h with h2; subst h2; rfl

/-- A failing identity-claim extraction always fails with `KeyError` or
`TypeError` — exactly the classes the handler catches. -/
theorem extract_user_id_err_isAuth (event : PyVal) (e : PyErr)
    (h : extract_user_id event = .error e) : isAuthErr e = true := by
  unfold extract_user_id at h
  cases h1 : pyIndex event "requestContext" with
  | error e1 =>
    rw [h1] at h
    injection h with h2
    subst h2
    exact pyIndex_err _ _ _ h1
  | ok rc =>
    rw [h1] at h
    dsimp only at h
    cases h2 : pyIndex rc "authorizer" with
    | error e2 =>
      rw [h2] at h
      injection h with h3
      subst h3
      exact pyIndex_err _ _ _ h2
    | ok az =>
      rw [h2] at h
      dsimp only at h
      cases h3 : pyIndex az "jwt" with
      | error e3 =>
        rw [h3] at h
        injection h with h4
        subst h4
        exact pyIndex_err _ _ _ h3
      | ok jwt =>
        rw [h3] at h
        dsimp only at h
        cases h4 : pyIndex jwt "claims" with
        | error e4 =>
          rw [h4] at h
          injection h with h5
          subst h5
          exact pyIndex_err _ _ _ h4
        | ok cl =>
          rw [h4] at h
          dsimp only at h
          exact pyIndex_err _ _ _ h

theorem strUpper_ne_empty (s : String) (h : s ≠ "") : strUpper s ≠ "" := by
  intro hc
  apply h
  unfold strUpper at hc
  cases s with
  | mk data =>
    cases data with
    | nil => rfl
    | cons c cs => simp [String.ext_iff] at hc

/-- A detected method value other than `None` can only come out of a
dict-shaped event: every probe that returns a value subscripts the event. -/
theorem detect_ok_val_dict (event : PyVal) (v : PyVal)
    (h : detect_http_method event = .ok v) (hv : v ≠ PyVal.none) :
    ∃ kvs, event = .dict kvs := by
  cases event with
  | dict kvs => exact ⟨kvs, rfl⟩
  | none => simp [detect_http_method, pyIn] at h
  | bool b => simp [detect_http_method, pyIn] at h
  | int n => simp [detect_http_method, pyIn] at h
  | dec q => simp [detect_http_method, pyIn] at h
  | str s =>
    unfold detect_http_method at h
    by_cases h1 : strContains s "httpMethod"
    · simp [pyIn, h1, pyIndex] at h
    · by_cases h2 : strContains s "requestContext"
      · simp [pyIn, h1, h2, pyIndex] at h
      · simp [pyIn, h1, h2] at h
        exact absurd h.symm hv
  | list xs =>
    unfold detect_http_method at h
    by_cases h1 : xs.any (fun v => match v with | .str t => t == "httpMethod" | _ => false)
    · simp [pyIn, h1, pyIndex] at h
    · by_cases h2 : xs.any (fun v => match v with | .str t => t == "requestContext" | _ => false)
      · simp [pyIn, h1, h2, pyIndex] at h
      · simp [pyIn, h1, h2] at h
        exact absurd h.symm hv

/-- The 401 response. -/
def auth401resp : HResponse :=
  {statusCode := 401, headers := cors_headers,
   body := .dict [("error", .str "Authentication failed")]}

/-- C7: on any resolved non-preflight method, a failing identity-claim
extraction yields 401 with no store operation performed and the store
unchanged. -/
theorem C7_missing_auth_401 (event : PyVal) (store : Store) (gF uF : Bool)
    (s : String) (e : PyErr)
    (Hm : detect_http_method event = .ok (.str s)) (Hne : s ≠ "")
    (Hno : strUpper s ≠ "OPTIONS") (Ha : extract_user_id event = .error e) :
    lambda_handler event store gF uF = (auth401resp, store, []) := by
  obtain ⟨kvs, hk⟩ := detect_ok_val_dict event (.str s) Hm (by simp)
  subst hk
  have hT : pyTruthy (.str s) = true := by simp [pyTruthy, Hne]
  have hT2 : pyTruthy (.str (strUpper s)) = true := by
    simp [pyTruthy, strUpper_ne_empty s Hne]
  have hOpt : pyEqStr (.str (strUpper s)) "OPTIONS" = false := by
    simp [pyEqStr, Hno]
  have hAuth := extract_user_id_err_isAuth _ _ Ha
  unfold lambda_handler lambda_handler_body handler_boundary
  simp only [Hm, hT, pyUpper, hOpt, hT2, Ha, hAuth, Bool.not_true, if_false, if_true,
    Bool.false_eq_true, pyGet, auth401resp]

theorem C7_witness :
    detect_http_method (.dict [("httpMethod", .str "GET")]) = .ok (.str "GET") ∧
    "GET" ≠ "" ∧ strUpper "GET" ≠ "OPTIONS" ∧
    extract_user_id (.dict [("httpMethod", .str "GET")]) =
      .error (.keyError "requestContext") ∧
    lambda_handler (.dict [("httpMethod", .str "GET")]) demoStore false false =
      (auth401resp, demoStore, []) :=
  ⟨rfl, by decide, by decide, rfl,
   C7_missing_auth_401 (.dict [("httpMethod", .str "GET")]) demoStore false false
     "GET" (.keyError "requestContext") rfl (by decide) (by decide) rfl⟩

/-! ### C6: method detection -/

/-- The code's ordered probing agrees with the spec's probe policy on
dict events whose metadata levels (when present) are dicts. -/
theorem detect_eq_spec_probe (kvs : List (String × PyVal))
    (Hrc : ∀ v, dictLookup kvs "requestContext" = some v → ∃ rckvs, v = .dict rckvs)
    (Hhttp : ∀ rckvs, dictLookup kvs "requestContext" = some (.dict rckvs) →
      ∀ hv, dictLookup rckvs "http" = some hv → ∃ hkvs, hv = .dict hkvs) :
    detect_http_method (.dict kvs) = .ok ((spec_probe_method kvs).getD PyVal.none) := by
  cases h1 : dictLookup kvs "httpMethod" with
  | some v => simp [detect_http_method, spec_probe_method, pyIn, pyIndex, h1]
  | none =>
    cases h2 : dictLookup kvs "requestContext" with
    | none => simp [detect_http_method, spec_probe_method, pyIn, pyIndex, h1, h2]
    | some rc =>
      obtain ⟨rckvs, hrc⟩ := Hrc rc h2
      subst hrc
      cases h3 : dictLookup rckvs "httpMethod" with
      | some v => simp [detect_http_method, spec_probe_method, pyIn, pyIndex, h1, h2, h3]
      | none =>
        cases h4 : dictLookup rckvs "http" with
        | none => simp [detect_http_method, spec_probe_method, pyIn, pyIndex, h1, h2, h3, h4]
        | some hv =>
          obtain ⟨hkvs, hh⟩ := Hhttp rckvs h2 hv h4
          subst hh
          cases h5 : dictLookup hkvs "method" with
          | some v =>
            simp [detect_http_method, spec_probe_method, pyIn, pyIndex, h1, h2, h3, h4, h5]
          | none =>
            simp [detect_http_method, spec_probe_method, pyIn, pyIndex, h1, h2, h3, h4, h5]

/-- C6: the handler resolves the method by the ordered probe policy and
upper-cases it; a resolved OPTIONS short-circuits to 200 with empty body,
no store access and no authentication; an undetermined method yields 400
whose debug payload names the top-level event keys. -/
theorem C6_method_detection (kvs : List (String × PyVal)) (store : Store) (gF uF : Bool)
    (Hrc : ∀ v, dictLookup kvs "requestContext" = some v → ∃ rckvs, v = .dict rckvs)
    (Hhttp : ∀ rckvs, dictLookup kvs "requestContext" = some (.dict rckvs) →
      ∀ hv, dictLookup rckvs "http" = some hv → ∃ hkvs, hv = .dict hkvs)
    (Hval : ∀ v, spec_probe_method kvs = some v → ∃ s, v = .str s ∧ s ≠ "") :
    detect_http_method (.dict kvs) = .ok ((spec_probe_method kvs).getD PyVal.none) ∧
    (∀ s, spec_probe_method kvs = some (.str s) → strUpper s = "OPTIONS" →
      lambda_handler (.dict kvs) store gF uF =
        ({statusCode := 200, headers := cors_headers, body := .str ""}, store, [])) ∧
    (spec_probe_method kvs = Option.none →
      ∃ rcKeys, lambda_handler (.dict kvs) store gF uF =
        ({statusCode := 400, headers := cors_headers,
          body := .dict [("error", .str "HTTP method not found in request"),
                         ("debug",
                          .dict [("eventKeys", .list ((kvs.map Prod.fst).map PyVal.str)),
                                 ("requestContextKeys", rcKeys)])]}, store, [])) := by
  have hdet := detect_eq_spec_probe kvs Hrc Hhttp
  refine ⟨hdet, ?_, ?_⟩
  · intro s hs hup
    obtain ⟨s2, hs2, hne2⟩ := Hval (.str s) hs
    have hsne : s ≠ "" := by
      injection hs2 with h
      subst h
      exact hne2
    have Hm : detect_http_method (.dict kvs) = .ok (.str s) := by
      rw [hdet, hs]
      rfl
    have hT : pyTruthy (.str s) = true := by simp [pyTruthy, hsne]
    have hOpt : pyEqStr (.str (strUpper s)) "OPTIONS" = true := by
      simp [pyEqStr, hup]
    unfold lambda_handler lambda_handler_body handler_boundary
    simp only [Hm, hT, pyUpper, hOpt, if_true]
  · intro hnone
    have Hm : detect_http_method (.dict kvs) = .ok PyVal.none := by
      rw [hdet, hnone]
      rfl
    cases h2 : dictLookup kvs "requestContext" with
    | none =>
      refine ⟨PyVal.none, ?_⟩
      unfold lambda_handler lambda_handler_body handler_boundary
      simp only [Hm, pyTruthy, pyEqStr, Bool.not_false, if_true, if_false, pyKeys,
        pyIn, h2, Option.isSome_none, Bool.false_eq_true, pyGet]
    | some rc =>
      obtain ⟨rckvs, hrc⟩ := Hrc rc h2
      subst hrc
      refine ⟨.list ((rckvs.map Prod.fst).map PyVal.str), ?_⟩
      unfold lambda_handler lambda_handler_body handler_boundary
      simp only [Hm, pyTruthy, pyEqStr, Bool.not_false, if_true, if_false, pyKeys,
        pyIn, h2, Option.isSome_some, Option.getD_some, Bool.false_eq_true, pyGet]

theorem C6_witness :
    spec_probe_method
        [("requestContext", PyVal.dict [("http", PyVal.dict [("method", PyVal.str "options")])])]
      = some (.str "options") ∧
    strUpper "options" = "OPTIONS" ∧
    lambda_handler
        (.dict [("requestContext", .dict [("http", .dict [("method", .str "options")])])])
        demoStore false false =
      ({statusCode := 200, headers := cors_headers, body := .str ""}, demoStore, []) ∧
    spec_probe_method [("foo", PyVal.str "x")] = Option.none ∧
    (lambda_handler (.dict [("foo", .str "x")]) demoStore false false).1.statusCode = 400 := by
  have h1 := C6_method_detection
    [("requestContext", .dict [("http", .dict [("method", .str "options")])])]
    demoStore false false
    (by intro v h; injection h with h2; subst h2; exact ⟨_, rfl⟩)
    (by intro rckvs h hv h2
        injection h with hh
        injection hh with hh2
        subst hh2
        injection h2 with h3
        subst h3
        exact ⟨_, rfl⟩)
    (by intro v h; injection h with h2; subst h2; exact ⟨"options", rfl, by decide⟩)
  have h2 := C6_method_detection [("foo", .str "x")] demoStore false false
    (by intro v h; exact Option.noConfusion h)
    (by intro rckvs h hv hx; exact Option.noConfusion h)
    (by intro v h; exact Option.noConfusion h)
  obtain ⟨rk, hrk⟩ := h2.2.2 rfl
  refine ⟨rfl, by decide, h1.2.1 "options" rfl (by decide), rfl, ?_⟩
  rw [hrk]

/-! ### C8: crash safety and the status taxonomy -/

/-- The documented status-code taxonomy. -/
def statusOK (n : Nat) : Prop :=
  n = 200 ∨ n = 400 ∨ n = 401 ∨ n = 404 ∨ n = 405 ∨ n = 500

theorem handle_get_status (store : Store) (gF : Bool) (uid : String) (cid : PyVal)
    (y : HResponse × Store × List StoreOp)
    (h : handle_get store gF uid cid = .ok y) :
    y.1.statusCode = 404 ∨ y.1.statusCode = 200 := by
  unfold handle_get at h
  split at h
  · exact Except.noConfusion h
  · injection h with h2
    subst h2
    left
    rfl
  · injection h with h2
    subst h2
    right
    rfl

theorem handle_delete_status (store : Store) (gF uF : Bool) (uid : String) (cid : PyVal)
    (y : HResponse × Store × List StoreOp)
    (h : handle_delete store gF uF uid cid = .ok y) :
    y.1.statusCode = 404 ∨ y.1.statusCode = 200 := by
  unfold handle_delete at h
  split at h
  · exact Except.noConfusion h
  · split at h
    · injection h with h2
      subst h2
      left
      rfl
    · injection h with h2
      subst h2
      right
      rfl

theorem chat_id_error_status (event : PyVal) (store : Store) (e : PyErr)
    (y : HResponse × Store × List StoreOp)
    (h : chat_id_error event store e = .ok y) : y.1.statusCode = 400 := by
  unfold chat_id_error at h
  split at h
  · split at h
    · exact Except.noConfusion h
    · injection h with h2
      subst h2
      rfl
  · exact Except.noConfusion h

theorem handle_get_statusOK (store : Store) (gF : Bool) (uid : String) (cid : PyVal)
    (y : HResponse × Store × List StoreOp)
    (h : handle_get store gF uid cid = .ok y) : statusOK y.1.statusCode := by
  rcases handle_get_status _ _ _ _ _ h with h2 | h2 <;> simp [statusOK, h2]

theorem handle_delete_statusOK (store : Store) (gF uF : Bool) (uid : String) (cid : PyVal)
    (y : HResponse × Store × List StoreOp)
    (h : handle_delete store gF uF uid cid = .ok y) : statusOK y.1.statusCode := by
  rcases handle_delete_status _ _ _ _ _ _ h with h2 | h2 <;> simp [statusOK, h2]

theorem chat_id_error_statusOK (event : PyVal) (store : Store) (e : PyErr)
    (y : HResponse × Store × List StoreOp)
    (h : chat_id_error event store e = .ok y) : statusOK y.1.statusCode := by
  rw [statusOK, chat_id_error_status _ _ _ _ h]
  simp

theorem lambda_handler_body_status (event : PyVal) (store : Store) (gF uF : Bool)
    (y : HResponse × Store × List StoreOp)
    (h : lambda_handler_body event store gF uF = .ok y) : statusOK y.1.statusCode := by
  unfold lambda_handler_body at h
  repeat' split at h
  all_goals try (injection h with h2; subst h2; simp [statusOK])
  all_goals try (exact Except.noConfusion h)
  all_goals first
    | exact handle_get_statusOK _ _ _ _ _ h
    | exact handle_delete_statusOK _ _ _ _ _ _ h
    | exact chat_id_error_statusOK _ _ _ _ h

theorem lambda_handler_status (event : PyVal) (store : Store) (gF uF : Bool) :
    statusOK (lambda_handler event store gF uF).1.statusCode := by
  unfold lambda_handler handler_boundary
  cases hx : lambda_handler_body event store gF uF with
  | ok y =>
    exact lambda_handler_body_status _ _ _ _ _ hx
  | error e =>
    cases e <;> simp [statusOK]

/-- The generic 500 response of the list handler. -/
def getchats500resp : HResponse :=
  {statusCode := 500, headers := getchats_err_headers,
   body := .dict [("error", .str "Internal server error")]}

theorem getchats_body_200 (event : PyVal) (store : Store) (gF : Bool) (r : HResponse)
    (h : getchats_lambda_handler_body event store gF = .ok r) : r.statusCode = 200 := by
  unfold getchats_lambda_handler_body at h
  repeat' split at h
  all_goals
    first
      | exact Except.noConfusion h
      | (injection h with h2; subst h2; rfl)

/-- C8: every detail-handler invocation — any event shape, any store
content, any store failure — produces a response whose status is in the
taxonomy {200,400,401,404,405,500}; the list handler answers 200 or the
generic 500, and any failure (identity claim missing, store unavailable)
yields exactly the generic 500 with no partial results. -/
theorem C8_no_crash_status_taxonomy (event : PyVal) (store : Store) (gF uF : Bool)
    (event2 : PyVal) (store2 : Store) (gF2 : Bool) :
    statusOK (lambda_handler event store gF uF).1.statusCode ∧
    ((getchats_lambda_handler event2 store2 gF2).statusCode = 200 ∨
      getchats_lambda_handler event2 store2 gF2 = getchats500resp) ∧
    (∀ e, extract_user_id event2 = .error e →
      getchats_lambda_handler event2 store2 gF2 = getchats500resp) ∧
    (gF2 = true → getchats_lambda_handler event2 store2 gF2 = getchats500resp) := by
  refine ⟨lambda_handler_status event store gF uF, ?_, ?_, ?_⟩
  · unfold getchats_lambda_handler
    cases hx : getchats_lambda_handler_body event2 store2 gF2 with
    | ok r =>
      left
      exact getchats_body_200 _ _ _ _ hx
    | error e =>
      right
      rfl
  · intro e he
    unfold getchats_lambda_handler getchats_lambda_handler_body
    simp only [he]
    rfl
  · intro hg
    subst hg
    unfold getchats_lambda_handler getchats_lambda_handler_body
    cases hx : extract_user_id event2 with
    | error e => simp only [hx]; rfl
    | ok v =>
      simp only [hx]
      cases hv : getUid v with
      | error e => simp only [hv]; rfl
      | ok uid => simp only [hv, if_true]; rfl

theorem C8_witness :
    statusOK (lambda_handler (.int 0) demoStore true true).1.statusCode ∧
    extract_user_id (.dict []) = .error (.keyError "requestContext") ∧
    getchats_lambda_handler (.dict []) demoStore false = getchats500resp ∧
    getchats_lambda_handler (mkListEvent "u1") demoStore true = getchats500resp := by
  have h := C8_no_crash_status_taxonomy (.int 0) demoStore true true (.dict []) demoStore false
  have h2 := C8_no_crash_status_taxonomy (.int 0) demoStore true true (mkListEvent "u1") demoStore true
  exact ⟨h.1, rfl, h.2.2.1 _ rfl, h2.2.2.2 rfl⟩
